import Mathlib

/-!
Verification development for the AeronauticRagFlow orchestrator of the
AI-Academy-Project repository.  The definitions below shallowly embed the
CrewAI flow implemented in `src/rag_flow/src/rag_flow/streamlit_main_app.py`
(class `AeronauticRagState`, class `AeronauticRagFlow`): external LLM judge
calls and crew kickoffs are modelled as an environment of oracles, a raised
Python exception as the `.error` branch of `Except`, and one `kickoff` of
the flow as the function `runFlow`, which also records the sequence of
external invocations as a trace.
-/

namespace RagFlow

/-- ASCII whitespace as removed by Python `str.strip` (the responses the
gates normalize only ever lose leading and trailing whitespace, so the
ASCII subset of the Python whitespace class is what matters here). -/
def isWS (c : Char) : Bool :=
  c == ' ' || c == '\t' || c == '\n' || c == '\r' || c == '\x0b' || c == '\x0c'

/-- Python `str.strip` on a character list: drop whitespace at both ends. -/
def pyStrip (s : List Char) : List Char :=
  ((s.dropWhile isWS).reverse.dropWhile isWS).reverse

/-- ASCII case folding of one character, as Python `str.lower` acts on the
ASCII range. -/
def pyLowerChar (c : Char) : Char :=
  if 'A' ≤ c && c ≤ 'Z' then Char.ofNat (c.toNat + 32) else c

/-- Python `str.lower` on a character list. -/
def pyLower (s : List Char) : List Char := s.map pyLowerChar

/-- Does `needle` occur at the start of `hay`? -/
def startsWithL : List Char → List Char → Bool
  | [], _ => true
  | _ :: _, [] => false
  | a :: as, b :: bs => a == b && startsWithL as bs

/-- Python `needle in hay` substring test on character lists. -/
def hasSubstrL (needle : List Char) : List Char → Bool
  | [] => needle.isEmpty
  | c :: t => startsWithL needle (c :: t) || hasSubstrL needle t

/-- Python `needle in hay` on strings. -/
def pyIn (needle hay : String) : Bool := hasSubstrL needle.data hay.data

/-- The normalization `res.content.strip().lower()` both gating routers
apply to the judge response (streamlit_main_app.py lines 236-237, 284-285). -/
def normalizeResp (s : String) : List Char := pyLower (pyStrip s.data)

/-- Shared gate classification: `'true' in res.content.strip().lower()`
(streamlit_main_app.py lines 239, 287). -/
def classifyJudge (resp : String) : Bool :=
  hasSubstrL "true".data (normalizeResp resp)

/-- State model `AeronauticRagState` (streamlit_main_app.py lines 120-152);
every field defaults to the empty string. -/
structure AeronauticRagState where
  question_input : String := ""
  rag_result : String := ""
  web_result : String := ""
  all_results : String := ""
  document : String := ""
  final_doc : String := ""
  rag_context : String := ""
  validation_error : String := ""
  error_message : String := ""
deriving DecidableEq, Repr

/-- Values held by the untyped payload dictionary threaded through the
listen methods: strings, and the crew objects (opaque here). -/
inductive PVal where
  | s (v : String)
  | crew (tag : String)
deriving DecidableEq, Repr

/-- Result of the `open("output/last_context.txt")` read inside
`rag_analysis` (streamlit_main_app.py lines 323-329). -/
inductive CtxRead where
  | found (text : String)
  | missing
  | failed (e : String)
deriving DecidableEq, Repr

/-- External collaborators of one run: the two judge LLM calls and the four
crew kickoffs, each mapping its input to either a text result (`.ok`) or
the text of a raised exception (`.error`), plus the context-file read. -/
structure Env where
  relevanceJudge : String → Except String String
  ethicsJudge : String → Except String String
  ragCrew : String → Except String String
  ctxFile : CtxRead
  webCrew : String → Except String String
  docCrew : String → Except String String
  biasCrew : String → Except String String

/-- One recorded external invocation, tagged with the input it was given. -/
inductive Event where
  | judgeRelevance (question : String)
  | judgeEthics (question : String)
  | ragWorker (input : String)
  | webWorker (input : String)
  | docWorker (input : String)
  | biasWorker (input : String)
deriving DecidableEq, Repr

/-- Research and review worker invocations, as opposed to judge calls. -/
def isWorkerEvent : Event → Bool
  | .judgeRelevance _ => false
  | .judgeEthics _ => false
  | _ => true

/-- Terminal outcome of one `kickoff`: normal completion with the final
payload, a validation stop via `handle_validation_error`, or a Python
exception escaping a research stage (no try/except there). -/
inductive Outcome where
  | completed (payload : List (String × PVal))
  | validationFailed
  | fatal (e : String)
deriving DecidableEq, Repr

/-- A finished run: outcome, final state, and the trace of external calls. -/
structure RunResult where
  outcome : Outcome
  state : AeronauticRagState
  trace : List Event
deriving DecidableEq, Repr

/-- Frontend message set by the relevance gate on a negative verdict
(streamlit_main_app.py line 244). -/
def aeroRejectMsg : String :=
  "La domanda non è rilevante per l\x27aeronautica. Inserisci una domanda pertinente al settore aeronautico (aerei, elicotteri, droni, motori aeronautici, aerodinamica, etc.)."

/-- Frontend message set by the ethics gate on a negative verdict
(streamlit_main_app.py line 292). -/
def ethicsRejectMsg : String :=
  "La domanda presenta problematiche etiche. Inserisci una domanda appropriata che non contenga contenuti dannosi, discriminatori o inappropriati."

/-- Fixed head of the technical message of the relevance gate
(streamlit_main_app.py line 249). -/
def aeroTechHead : String := "Errore durante la validazione aeronautica: "

/-- Fixed head of the technical message of the ethics gate
(streamlit_main_app.py line 297). -/
def ethicsTechHead : String := "Errore durante la validazione etica: "

/-- The CONTEXT string produced by the guarded context-file read in
`rag_analysis` (streamlit_main_app.py lines 323-329). -/
def ctxText : CtxRead → String
  | .found t => t
  | .missing => "Context file not available"
  | .failed e => "Error reading context: " ++ e

/-- The aggregation f-string of `aggregate_results`
(streamlit_main_app.py line 363). -/
def aggStr (ragResult webResult : String) : String :=
  "RAG Result: " ++ ragResult ++ "\n\nWeb Result: " ++ webResult

/-- One `AeronauticRagFlow.kickoff()` with `state.question_input` preset to
`q`, as the Streamlit page does (streamlit_main_app.py lines 503-508).
Stages run in the decorator order: `starting_procedure` and
`generate_question` (no state effect), the `aeronautic_question_analysis`
router, the `ethic_question_analysis` router, then on "success-ethical"
the unguarded chain `rag_analysis`, `web_analysis`, `aggregate_results`,
`bias_check`, `plot_generation`; the "validation_failed" signal routes to
`handle_validation_error`, which ends the run. -/
def runFlow (env : Env) (q : String) : RunResult :=
  let s0 : AeronauticRagState := { question_input := q }
  match env.relevanceJudge q with
  | .error e =>
      { outcome := .validationFailed,
        state := { s0 with validation_error := "technical",
                           error_message := aeroTechHead ++ e },
        trace := [.judgeRelevance q] }
  | .ok resp =>
    if classifyJudge resp then
      match env.ethicsJudge q with
      | .error e =>
          { outcome := .validationFailed,
            state := { s0 with validation_error := "technical",
                               error_message := ethicsTechHead ++ e },
            trace := [.judgeRelevance q, .judgeEthics q] }
      | .ok resp2 =>
        if classifyJudge resp2 then
          match env.ragCrew q with
          | .error e =>
              { outcome := .fatal e, state := s0,
                trace := [.judgeRelevance q, .judgeEthics q, .ragWorker q] }
          | .ok ragRaw =>
            let s1 := { s0 with rag_result := ragRaw }
            let payload1 : List (String × PVal) :=
              [("aero_crew", .crew "aero_crew"),
               ("rag_context", .s (ctxText env.ctxFile)),
               ("rag_result", .s ragRaw),
               ("question", .s q)]
            match env.webCrew q with
            | .error e =>
                { outcome := .fatal e, state := s1,
                  trace := [.judgeRelevance q, .judgeEthics q,
                            .ragWorker q, .webWorker q] }
            | .ok webRaw =>
              let s2 := { s1 with web_result := webRaw }
              let payload2 := payload1 ++
                [("web_result", .s webRaw), ("web_crew", .crew "web_crew")]
              let aggregated := aggStr s2.rag_result s2.web_result
              let s3 := { s2 with all_results := aggregated }
              match env.docCrew aggregated with
              | .error e =>
                  { outcome := .fatal e, state := s3,
                    trace := [.judgeRelevance q, .judgeEthics q,
                              .ragWorker q, .webWorker q,
                              .docWorker aggregated] }
              | .ok docRaw =>
                let s4 := { s3 with document := docRaw }
                let payload3 := payload2 ++
                  [("doc_context", .s aggregated), ("doc_result", .s docRaw),
                   ("doc_crew", .crew "doc_crew")]
                match env.biasCrew s4.document with
                | .error e =>
                    { outcome := .fatal e, state := s4,
                      trace := [.judgeRelevance q, .judgeEthics q,
                                .ragWorker q, .webWorker q,
                                .docWorker aggregated,
                                .biasWorker s4.document] }
                | .ok biasRaw =>
                    { outcome := .completed (payload3 ++
                        [("bias_context", .s s4.document),
                         ("bias_result", .s biasRaw),
                         ("bias_crew", .crew "bias_crew")]),
                      state := { s4 with final_doc := biasRaw },
                      trace := [.judgeRelevance q, .judgeEthics q,
                                .ragWorker q, .webWorker q,
                                .docWorker aggregated,
                                .biasWorker s4.document] }
        else
          { outcome := .validationFailed,
            state := { s0 with validation_error := "ethical",
                               error_message := ethicsRejectMsg },
            trace := [.judgeRelevance q, .judgeEthics q] }
    else
      { outcome := .validationFailed,
        state := { s0 with validation_error := "aeronautic",
                           error_message := aeroRejectMsg },
        trace := [.judgeRelevance q] }

/-- Final state after a negative relevance verdict. -/
def relNegState (q : String) : AeronauticRagState :=
  { question_input := q, validation_error := "aeronautic",
    error_message := aeroRejectMsg }

/-- Final state after a negative ethics verdict. -/
def ethNegState (q : String) : AeronauticRagState :=
  { question_input := q, validation_error := "ethical",
    error_message := ethicsRejectMsg }

/-- Payload dictionary at the end of a fully successful run, in insertion
order. -/
def fullPayload (ctx ragRaw q webRaw docRaw biasRaw : String) :
    List (String × PVal) :=
  [("aero_crew", .crew "aero_crew"), ("rag_context", .s ctx),
   ("rag_result", .s ragRaw), ("question", .s q),
   ("web_result", .s webRaw), ("web_crew", .crew "web_crew"),
   ("doc_context", .s (aggStr ragRaw webRaw)), ("doc_result", .s docRaw),
   ("doc_crew", .crew "doc_crew"),
   ("bias_context", .s docRaw), ("bias_result", .s biasRaw),
   ("bias_crew", .crew "bias_crew")]

/-- Final state of a fully successful run. -/
def successState (q ragRaw webRaw docRaw biasRaw : String) :
    AeronauticRagState :=
  { question_input := q, rag_result := ragRaw, web_result := webRaw,
    all_results := aggStr ragRaw webRaw, document := docRaw,
    final_doc := biasRaw }

/-- Trace of a run in which both gates pass and all four crews are invoked. -/
def successTrace (q ragRaw webRaw docRaw : String) : List Event :=
  [.judgeRelevance q, .judgeEthics q, .ragWorker q, .webWorker q,
   .docWorker (aggStr ragRaw webRaw), .biasWorker docRaw]

/-- Environment in which both judges affirm and every crew succeeds. -/
def envAllTrue : Env :=
  { relevanceJudge := fun _ => .ok "True",
    ethicsJudge := fun _ => .ok "True",
    ragCrew := fun _ => .ok "RAGOUT",
    ctxFile := .found "CTX",
    webCrew := fun _ => .ok "WEBOUT",
    docCrew := fun _ => .ok "DOCOUT",
    biasCrew := fun _ => .ok "BIASOUT" }

/-- Environment whose relevance judge denies relevance. -/
def envRelNo : Env := { envAllTrue with relevanceJudge := fun _ => .ok "False" }

/-- Environment whose ethics judge denies the question. -/
def envEthNo : Env := { envAllTrue with ethicsJudge := fun _ => .ok "False" }

/-- Environment whose rag crew kickoff raises an exception. -/
def envRagBoom : Env := { envAllTrue with ragCrew := fun _ => .error "boom" }

/-- Environment whose relevance judge call raises an exception. -/
def envRelErr : Env :=
  { envAllTrue with relevanceJudge := fun _ => .error "timeout" }

/-- Correctness of the starts-with test. -/
theorem startsWithL_iff (n h : List Char) :
    startsWithL n h = true ↔ n <+: h := by
  induction n generalizing h with
  | nil => simp [startsWithL]
  | cons a as ih =>
    cases h with
    | nil => simp [startsWithL]
    | cons b bs => simp [startsWithL, ih, List.cons_prefix_cons]

/-- Correctness of the substring test: it decides list containment. -/
theorem hasSubstrL_iff (n h : List Char) :
    hasSubstrL n h = true ↔ n <:+: h := by
  induction h with
  | nil => simp [hasSubstrL, List.isEmpty_iff]
  | cons c t ih =>
    simp [hasSubstrL, ih, startsWithL_iff, List.infix_cons_iff]

/-- Correctness of `pyIn` at the string level. -/
theorem pyIn_iff (needle hay : String) :
    pyIn needle hay = true ↔ needle.data <:+: hay.data := by
  simp [pyIn, hasSubstrL_iff]

/-- The rag result occurs in the aggregation string. -/
theorem ragResult_in_aggStr (a w : String) : pyIn a (aggStr a w) = true := by
  rw [pyIn_iff]
  exact ⟨"RAG Result: ".data, "\n\nWeb Result: ".data ++ w.data,
    by simp [aggStr, String.data_append]⟩

/-- The web result occurs in the aggregation string. -/
theorem webResult_in_aggStr (a w : String) : pyIn w (aggStr a w) = true := by
  rw [pyIn_iff]
  exact ⟨"RAG Result: ".data ++ a.data ++ "\n\nWeb Result: ".data, [],
    by simp [aggStr, String.data_append]⟩

/-- A string occurs in itself prefixed by anything. -/
theorem pyIn_append_self (p m : String) : pyIn m (p ++ m) = true := by
  rw [pyIn_iff]
  rw [String.data_append]
  exact ⟨p.data, [], by simp⟩

/-- A string with nonempty data is not the empty string. -/
theorem ne_empty_of_data_ne (s : String) (h : s.data ≠ []) : s ≠ "" := by
  intro hs
  apply h
  rw [hs]

/-- Appending to a nonempty string stays nonempty. -/
theorem append_ne_empty_left (s t : String) (h : s.data ≠ []) :
    s ++ t ≠ "" := by
  apply ne_empty_of_data_ne
  rw [String.data_append]
  simp [h]

/-- Run shape when the relevance judge call raises `e`. -/
theorem runFlow_relErr (env : Env) (q e : String)
    (h : env.relevanceJudge q = .error e) :
    runFlow env q =
      { outcome := .validationFailed,
        state := { question_input := q, validation_error := "technical",
                   error_message := aeroTechHead ++ e },
        trace := [.judgeRelevance q] } := by
  simp only [runFlow, h]

/-- Run shape when the relevance judge answers `resp` classified negative. -/
theorem runFlow_relNeg (env : Env) (q resp : String)
    (h : env.relevanceJudge q = .ok resp) (hc : classifyJudge resp = false) :
    runFlow env q =
      { outcome := .validationFailed,
        state := relNegState q,
        trace := [.judgeRelevance q] } := by
  simp only [runFlow, h, hc, relNegState, Bool.false_eq_true, if_false]

/-- Run shape when relevance passes and the ethics judge call raises `e`. -/
theorem runFlow_ethErr (env : Env) (q resp e : String)
    (h : env.relevanceJudge q = .ok resp) (hc : classifyJudge resp = true)
    (h2 : env.ethicsJudge q = .error e) :
    runFlow env q =
      { outcome := .validationFailed,
        state := { question_input := q, validation_error := "technical",
                   error_message := ethicsTechHead ++ e },
        trace := [.judgeRelevance q, .judgeEthics q] } := by
  simp only [runFlow, h, hc, if_true, h2]

/-- Run shape when relevance passes and the ethics judge answers `resp2`
classified negative. -/
theorem runFlow_ethNeg (env : Env) (q resp resp2 : String)
    (h : env.relevanceJudge q = .ok resp) (hc : classifyJudge resp = true)
    (h2 : env.ethicsJudge q = .ok resp2) (hc2 : classifyJudge resp2 = false) :
    runFlow env q =
      { outcome := .validationFailed,
        state := ethNegState q,
        trace := [.judgeRelevance q, .judgeEthics q] } := by
  simp only [runFlow, h, hc, if_true, h2, hc2, ethNegState,
    Bool.false_eq_true, if_false]

/-- Run shape when both gates pass and the rag crew kickoff raises `e`. -/
theorem runFlow_ragErr (env : Env) (q resp resp2 e : String)
    (h : env.relevanceJudge q = .ok resp) (hc : classifyJudge resp = true)
    (h2 : env.ethicsJudge q = .ok resp2) (hc2 : classifyJudge resp2 = true)
    (h3 : env.ragCrew q = .error e) :
    runFlow env q =
      { outcome := .fatal e,
        state := { question_input := q },
        trace := [.judgeRelevance q, .judgeEthics q, .ragWorker q] } := by
  simp only [runFlow, h, hc, if_true, h2, hc2, h3]

/-- Run shape when both gates pass, the rag crew succeeds and the web crew
kickoff raises `e`. -/
theorem runFlow_webErr (env : Env) (q resp resp2 ragRaw e : String)
    (h : env.relevanceJudge q = .ok resp) (hc : classifyJudge resp = true)
    (h2 : env.ethicsJudge q = .ok resp2) (hc2 : classifyJudge resp2 = true)
    (h3 : env.ragCrew q = .ok ragRaw) (h4 : env.webCrew q = .error e) :
    runFlow env q =
      { outcome := .fatal e,
        state := { question_input := q, rag_result := ragRaw },
        trace := [.judgeRelevance q, .judgeEthics q, .ragWorker q,
                  .webWorker q] } := by
  simp only [runFlow, h, hc, if_true, h2, hc2, h3, h4]

/-- Run shape when both gates and both research crews succeed and the doc
crew kickoff raises `e`; note `all_results` is already set. -/
theorem runFlow_docErr (env : Env) (q resp resp2 ragRaw webRaw e : String)
    (h : env.relevanceJudge q = .ok resp) (hc : classifyJudge resp = true)
    (h2 : env.ethicsJudge q = .ok resp2) (hc2 : classifyJudge resp2 = true)
    (h3 : env.ragCrew q = .ok ragRaw) (h4 : env.webCrew q = .ok webRaw)
    (h5 : env.docCrew (aggStr ragRaw webRaw) = .error e) :
    runFlow env q =
      { outcome := .fatal e,
        state := { question_input := q, rag_result := ragRaw,
                   web_result := webRaw,
                   all_results := aggStr ragRaw webRaw },
        trace := [.judgeRelevance q, .judgeEthics q, .ragWorker q,
                  .webWorker q, .docWorker (aggStr ragRaw webRaw)] } := by
  simp only [runFlow, h, hc, if_true, h2, hc2, h3, h4, h5]

/-- Run shape when everything up to document synthesis succeeds and the
bias crew kickoff raises `e`. -/
theorem runFlow_biasErr (env : Env) (q resp resp2 ragRaw webRaw docRaw e : String)
    (h : env.relevanceJudge q = .ok resp) (hc : classifyJudge resp = true)
    (h2 : env.ethicsJudge q = .ok resp2) (hc2 : classifyJudge resp2 = true)
    (h3 : env.ragCrew q = .ok ragRaw) (h4 : env.webCrew q = .ok webRaw)
    (h5 : env.docCrew (aggStr ragRaw webRaw) = .ok docRaw)
    (h6 : env.biasCrew docRaw = .error e) :
    runFlow env q =
      { outcome := .fatal e,
        state := { question_input := q, rag_result := ragRaw,
                   web_result := webRaw,
                   all_results := aggStr ragRaw webRaw, document := docRaw },
        trace := [.judgeRelevance q, .judgeEthics q, .ragWorker q,
                  .webWorker q, .docWorker (aggStr ragRaw webRaw),
                  .biasWorker docRaw] } := by
  simp only [runFlow, h, hc, if_true, h2, hc2, h3, h4, h5, h6]

/-- Run shape of a fully successful run. -/
theorem runFlow_success (env : Env) (q resp resp2 ragRaw webRaw docRaw biasRaw : String)
    (h : env.relevanceJudge q = .ok resp) (hc : classifyJudge resp = true)
    (h2 : env.ethicsJudge q = .ok resp2) (hc2 : classifyJudge resp2 = true)
    (h3 : env.ragCrew q = .ok ragRaw) (h4 : env.webCrew q = .ok webRaw)
    (h5 : env.docCrew (aggStr ragRaw webRaw) = .ok docRaw)
    (h6 : env.biasCrew docRaw = .ok biasRaw) :
    runFlow env q =
      { outcome := .completed
          (fullPayload (ctxText env.ctxFile) ragRaw q webRaw docRaw biasRaw),
        state := successState q ragRaw webRaw docRaw biasRaw,
        trace := successTrace q ragRaw webRaw docRaw } := by
  simp only [runFlow, h, hc, if_true, h2, hc2, h3, h4, h5, h6,
    fullPayload, successState, successTrace, List.append_assoc,
    List.cons_append, List.nil_append]

/-- Every run follows one of the nine control paths of the flow. -/
theorem runFlow_branches (env : Env) (q : String) :
    (∃ e, env.relevanceJudge q = .error e) ∨
    (∃ r1, env.relevanceJudge q = .ok r1 ∧ classifyJudge r1 = false) ∨
    (∃ r1 e, env.relevanceJudge q = .ok r1 ∧ classifyJudge r1 = true ∧
      env.ethicsJudge q = .error e) ∨
    (∃ r1 r2, env.relevanceJudge q = .ok r1 ∧ classifyJudge r1 = true ∧
      env.ethicsJudge q = .ok r2 ∧ classifyJudge r2 = false) ∨
    (∃ r1 r2 e, env.relevanceJudge q = .ok r1 ∧ classifyJudge r1 = true ∧
      env.ethicsJudge q = .ok r2 ∧ classifyJudge r2 = true ∧
      env.ragCrew q = .error e) ∨
    (∃ r1 r2 a e, env.relevanceJudge q = .ok r1 ∧ classifyJudge r1 = true ∧
      env.ethicsJudge q = .ok r2 ∧ classifyJudge r2 = true ∧
      env.ragCrew q = .ok a ∧ env.webCrew q = .error e) ∨
    (∃ r1 r2 a w e, env.relevanceJudge q = .ok r1 ∧ classifyJudge r1 = true ∧
      env.ethicsJudge q = .ok r2 ∧ classifyJudge r2 = true ∧
      env.ragCrew q = .ok a ∧ env.webCrew q = .ok w ∧
      env.docCrew (aggStr a w) = .error e) ∨
    (∃ r1 r2 a w d e, env.relevanceJudge q = .ok r1 ∧ classifyJudge r1 = true ∧
      env.ethicsJudge q = .ok r2 ∧ classifyJudge r2 = true ∧
      env.ragCrew q = .ok a ∧ env.webCrew q = .ok w ∧
      env.docCrew (aggStr a w) = .ok d ∧ env.biasCrew d = .error e) ∨
    (∃ r1 r2 a w d b, env.relevanceJudge q = .ok r1 ∧ classifyJudge r1 = true ∧
      env.ethicsJudge q = .ok r2 ∧ classifyJudge r2 = true ∧
      env.ragCrew q = .ok a ∧ env.webCrew q = .ok w ∧
      env.docCrew (aggStr a w) = .ok d ∧ env.biasCrew d = .ok b) := by
  cases h1 : env.relevanceJudge q with
  | error e => exact Or.inl ⟨e, rfl⟩
  | ok r1 =>
  cases hc1 : classifyJudge r1 with
  | false => exact Or.inr (Or.inl ⟨r1, rfl, hc1⟩)
  | true =>
  cases h2 : env.ethicsJudge q with
  | error e => exact Or.inr (Or.inr (Or.inl ⟨r1, e, rfl, hc1, rfl⟩))
  | ok r2 =>
  cases hc2 : classifyJudge r2 with
  | false => exact Or.inr (Or.inr (Or.inr (Or.inl ⟨r1, r2, rfl, hc1, rfl, hc2⟩)))
  | true =>
  cases h3 : env.ragCrew q with
  | error e =>
    exact Or.inr (Or.inr (Or.inr (Or.inr (Or.inl
      ⟨r1, r2, e, rfl, hc1, rfl, hc2, rfl⟩))))
  | ok a =>
  cases h4 : env.webCrew q with
  | error e =>
    exact Or.inr (Or.inr (Or.inr (Or.inr (Or.inr (Or.inl
      ⟨r1, r2, a, e, rfl, hc1, rfl, hc2, rfl, rfl⟩)))))
  | ok w =>
  cases h5 : env.docCrew (aggStr a w) with
  | error e =>
    exact Or.inr (Or.inr (Or.inr (Or.inr (Or.inr (Or.inr (Or.inl
      ⟨r1, r2, a, w, e, rfl, hc1, rfl, hc2, rfl, rfl, h5⟩))))))
  | ok d =>
  cases h6 : env.biasCrew d with
  | error e =>
    exact Or.inr (Or.inr (Or.inr (Or.inr (Or.inr (Or.inr (Or.inr (Or.inl
      ⟨r1, r2, a, w, d, e, rfl, hc1, rfl, hc2, rfl, rfl, h5, h6⟩)))))))
  | ok b =>
    exact Or.inr (Or.inr (Or.inr (Or.inr (Or.inr (Or.inr (Or.inr (Or.inr
      ⟨r1, r2, a, w, d, b, rfl, hc1, rfl, hc2, rfl, rfl, h5, h6⟩)))))))

/-- Once the relevance gate passes, the ethics judge is invoked, whatever
happens afterwards. -/
theorem ethicsJudge_invoked (env : Env) (q r1 : String)
    (h1 : env.relevanceJudge q = .ok r1) (hc1 : classifyJudge r1 = true) :
    Event.judgeEthics q ∈ (runFlow env q).trace := by
  cases h2 : env.ethicsJudge q with
  | error e => rw [runFlow_ethErr env q r1 e h1 hc1 h2]; simp
  | ok r2 =>
    cases hc2 : classifyJudge r2 with
    | false => rw [runFlow_ethNeg env q r1 r2 h1 hc1 h2 hc2]; simp
    | true =>
      cases h3 : env.ragCrew q with
      | error e => rw [runFlow_ragErr env q r1 r2 e h1 hc1 h2 hc2 h3]; simp
      | ok a =>
        cases h4 : env.webCrew q with
        | error e =>
          rw [runFlow_webErr env q r1 r2 a e h1 hc1 h2 hc2 h3 h4]; simp
        | ok w =>
          cases h5 : env.docCrew (aggStr a w) with
          | error e =>
            rw [runFlow_docErr env q r1 r2 a w e h1 hc1 h2 hc2 h3 h4 h5]; simp
          | ok d =>
            cases h6 : env.biasCrew d with
            | error e =>
              rw [runFlow_biasErr env q r1 r2 a w d e h1 hc1 h2 hc2 h3 h4 h5 h6]
              simp
            | ok b =>
              rw [runFlow_success env q r1 r2 a w d b h1 hc1 h2 hc2 h3 h4 h5 h6]
              simp [successTrace]

/-- Once both gates pass, the rag crew is invoked, whatever happens
afterwards. -/
theorem ragWorker_invoked (env : Env) (q r1 r2 : String)
    (h1 : env.relevanceJudge q = .ok r1) (hc1 : classifyJudge r1 = true)
    (h2 : env.ethicsJudge q = .ok r2) (hc2 : classifyJudge r2 = true) :
    Event.ragWorker q ∈ (runFlow env q).trace := by
  cases h3 : env.ragCrew q with
  | error e => rw [runFlow_ragErr env q r1 r2 e h1 hc1 h2 hc2 h3]; simp
  | ok a =>
    cases h4 : env.webCrew q with
    | error e => rw [runFlow_webErr env q r1 r2 a e h1 hc1 h2 hc2 h3 h4]; simp
    | ok w =>
      cases h5 : env.docCrew (aggStr a w) with
      | error e =>
        rw [runFlow_docErr env q r1 r2 a w e h1 hc1 h2 hc2 h3 h4 h5]; simp
      | ok d =>
        cases h6 : env.biasCrew d with
        | error e =>
          rw [runFlow_biasErr env q r1 r2 a w d e h1 hc1 h2 hc2 h3 h4 h5 h6]
          simp
        | ok b =>
          rw [runFlow_success env q r1 r2 a w d b h1 hc1 h2 hc2 h3 h4 h5 h6]
          simp [successTrace]

/-- C1 (counterexample): in a run in which both gates pass and all four
crews succeed, the web crew kickoff receives only the question, which does
not contain the rag stage output, so the claim that each subsequent worker
call receives the prior stage's output as part of its input fails at the
web-research stage. -/
theorem c1_worker_order_cex :
    (runFlow envAllTrue "q1").trace =
      [.judgeRelevance "q1", .judgeEthics "q1", .ragWorker "q1",
       .webWorker "q1", .docWorker (aggStr "RAGOUT" "WEBOUT"),
       .biasWorker "DOCOUT"] ∧
    (runFlow envAllTrue "q1").state.rag_result = "RAGOUT" ∧
    pyIn "RAGOUT" "q1" = false := by decide

/-- C1 (amended): for every question passing both gates with all workers
succeeding, the workers run in the fixed order rag, web, doc, bias; the
synthesis worker's input contains both the rag and the web results, and the
bias worker's input is exactly the synthesis output; the web worker's input
however is exactly the original question, not the rag output. -/
theorem c1_worker_order (env : Env) (q r1 r2 a w d b : String)
    (h1 : env.relevanceJudge q = .ok r1) (hc1 : classifyJudge r1 = true)
    (h2 : env.ethicsJudge q = .ok r2) (hc2 : classifyJudge r2 = true)
    (h3 : env.ragCrew q = .ok a) (h4 : env.webCrew q = .ok w)
    (h5 : env.docCrew (aggStr a w) = .ok d) (h6 : env.biasCrew d = .ok b) :
    (runFlow env q).trace =
      [.judgeRelevance q, .judgeEthics q, .ragWorker q, .webWorker q,
       .docWorker (aggStr a w), .biasWorker d] ∧
    pyIn a (aggStr a w) = true ∧ pyIn w (aggStr a w) = true := by
  rw [runFlow_success env q r1 r2 a w d b h1 hc1 h2 hc2 h3 h4 h5 h6]
  exact ⟨rfl, ragResult_in_aggStr a w, webResult_in_aggStr a w⟩

/-- C1 (witness): the amended order statement at a concrete environment. -/
theorem c1_worker_order_witness :
    (runFlow envAllTrue "w1").trace =
      [.judgeRelevance "w1", .judgeEthics "w1", .ragWorker "w1",
       .webWorker "w1", .docWorker (aggStr "RAGOUT" "WEBOUT"),
       .biasWorker "DOCOUT"] ∧
    pyIn "RAGOUT" (aggStr "RAGOUT" "WEBOUT") = true ∧
    pyIn "WEBOUT" (aggStr "RAGOUT" "WEBOUT") = true :=
  c1_worker_order envAllTrue "w1" "True" "True" "RAGOUT" "WEBOUT" "DOCOUT"
    "BIASOUT" rfl (by decide) rfl (by decide) rfl rfl rfl rfl

/-- C2 (counterexample): on a negative relevance verdict the run is
rejected, but the stored kind is the literal "aeronautic", not "domain". -/
theorem c2_domain_reject_cex :
    (runFlow envRelNo "best pizza topping").outcome = .validationFailed ∧
    (runFlow envRelNo "best pizza topping").state.validation_error =
      "aeronautic" ∧
    ¬(runFlow envRelNo "best pizza topping").state.validation_error =
      "domain" := by decide

/-- C2 (amended): for every question classified negative by the relevance
judge, the run terminates rejected with kind "aeronautic" (the code's
rendering of the domain rejection) and a nonempty human-readable message,
and neither the ethics judge nor any research worker is invoked. -/
theorem c2_domain_reject (env : Env) (q r1 : String)
    (h1 : env.relevanceJudge q = .ok r1) (hc1 : classifyJudge r1 = false) :
    (runFlow env q).outcome = .validationFailed ∧
    (runFlow env q).state.validation_error = "aeronautic" ∧
    (runFlow env q).state.error_message ≠ "" ∧
    (runFlow env q).trace = [.judgeRelevance q] := by
  rw [runFlow_relNeg env q r1 h1 hc1]
  exact ⟨rfl, rfl, show aeroRejectMsg ≠ "" by decide, rfl⟩

/-- C2 (witness): the amended domain rejection at a concrete environment. -/
theorem c2_domain_reject_witness :
    (runFlow envRelNo "w2").outcome = .validationFailed ∧
    (runFlow envRelNo "w2").state.validation_error = "aeronautic" ∧
    (runFlow envRelNo "w2").state.error_message ≠ "" ∧
    (runFlow envRelNo "w2").trace = [.judgeRelevance "w2"] :=
  c2_domain_reject envRelNo "w2" "False" rfl (by decide)

/-- C3 (counterexample): on a negative ethics verdict the run is rejected,
but the stored kind is the literal "ethical", not "ethics". -/
theorem c3_ethics_reject_cex :
    (runFlow envEthNo "q3").outcome = .validationFailed ∧
    (runFlow envEthNo "q3").state.validation_error = "ethical" ∧
    ¬(runFlow envEthNo "q3").state.validation_error = "ethics" := by decide

/-- C3 (amended): for every question that passes the relevance gate but is
classified negative by the ethics judge, the run terminates rejected with
kind "ethical" (the code's rendering of the ethics rejection) and a
nonempty message, and no research worker is ever invoked. -/
theorem c3_ethics_reject (env : Env) (q r1 r2 : String)
    (h1 : env.relevanceJudge q = .ok r1) (hc1 : classifyJudge r1 = true)
    (h2 : env.ethicsJudge q = .ok r2) (hc2 : classifyJudge r2 = false) :
    (runFlow env q).outcome = .validationFailed ∧
    (runFlow env q).state.validation_error = "ethical" ∧
    (runFlow env q).state.error_message ≠ "" ∧
    (runFlow env q).trace = [.judgeRelevance q, .judgeEthics q] := by
  rw [runFlow_ethNeg env q r1 r2 h1 hc1 h2 hc2]
  exact ⟨rfl, rfl, show ethicsRejectMsg ≠ "" by decide, rfl⟩

/-- C3 (witness): the amended ethics rejection at a concrete environment. -/
theorem c3_ethics_reject_witness :
    (runFlow envEthNo "w3").outcome = .validationFailed ∧
    (runFlow envEthNo "w3").state.validation_error = "ethical" ∧
    (runFlow envEthNo "w3").state.error_message ≠ "" ∧
    (runFlow envEthNo "w3").trace =
      [.judgeRelevance "w3", .judgeEthics "w3"] :=
  c3_ethics_reject envEthNo "w3" "True" "False" rfl (by decide) rfl (by decide)

/-- C4 (counterexample): when a research crew raises, the run terminates
with neither the final document nor the validation-error kind set, so the
"never neither" half of the claimed exclusive-or fails. -/
theorem c4_terminal_xor_cex :
    (runFlow envRagBoom "q4").outcome = .fatal "boom" ∧
    (runFlow envRagBoom "q4").state.final_doc = "" ∧
    (runFlow envRagBoom "q4").state.validation_error = "" := by decide

/-- C4 (amended): at every terminal outcome at most one of final_doc and
validation_error is set; on a validation stop exactly the error kind is
set, on completion the error kind is empty (so exactly one is set whenever
the bias output is nonempty), and on a fatal worker exception neither is
set. -/
theorem c4_terminal_xor (env : Env) (q : String) :
    (¬((runFlow env q).state.final_doc ≠ "" ∧
       (runFlow env q).state.validation_error ≠ "")) ∧
    ((runFlow env q).outcome = .validationFailed →
      (runFlow env q).state.validation_error ≠ "" ∧
      (runFlow env q).state.final_doc = "") ∧
    (∀ p, (runFlow env q).outcome = .completed p →
      (runFlow env q).state.validation_error = "") ∧
    (∀ e, (runFlow env q).outcome = .fatal e →
      (runFlow env q).state.final_doc = "" ∧
      (runFlow env q).state.validation_error = "") := by
  rcases runFlow_branches env q with
    ⟨e, h1⟩ | ⟨r1, h1, hc1⟩ | ⟨r1, e, h1, hc1, h2⟩ |
    ⟨r1, r2, h1, hc1, h2, hc2⟩ | ⟨r1, r2, e, h1, hc1, h2, hc2, h3⟩ |
    ⟨r1, r2, a, e, h1, hc1, h2, hc2, h3, h4⟩ |
    ⟨r1, r2, a, w, e, h1, hc1, h2, hc2, h3, h4, h5⟩ |
    ⟨r1, r2, a, w, d, e, h1, hc1, h2, hc2, h3, h4, h5, h6⟩ |
    ⟨r1, r2, a, w, d, b, h1, hc1, h2, hc2, h3, h4, h5, h6⟩
  · rw [runFlow_relErr env q e h1]
    exact ⟨by simp, fun _ => ⟨show ("technical" : String) ≠ "" by decide, rfl⟩,
      fun p hp => by simp at hp, fun e2 hp => by simp at hp⟩
  · rw [runFlow_relNeg env q r1 h1 hc1]
    exact ⟨by simp [relNegState], fun _ =>
        ⟨show ("aeronautic" : String) ≠ "" by decide, rfl⟩,
      fun p hp => by simp at hp, fun e2 hp => by simp at hp⟩
  · rw [runFlow_ethErr env q r1 e h1 hc1 h2]
    exact ⟨by simp, fun _ => ⟨show ("technical" : String) ≠ "" by decide, rfl⟩,
      fun p hp => by simp at hp, fun e2 hp => by simp at hp⟩
  · rw [runFlow_ethNeg env q r1 r2 h1 hc1 h2 hc2]
    exact ⟨by simp [ethNegState], fun _ =>
        ⟨show ("ethical" : String) ≠ "" by decide, rfl⟩,
      fun p hp => by simp at hp, fun e2 hp => by simp at hp⟩
  · rw [runFlow_ragErr env q r1 r2 e h1 hc1 h2 hc2 h3]
    exact ⟨by simp, fun hv => by simp at hv, fun p hp => by simp at hp,
      fun e2 hp => ⟨rfl, rfl⟩⟩
  · rw [runFlow_webErr env q r1 r2 a e h1 hc1 h2 hc2 h3 h4]
    exact ⟨by simp, fun hv => by simp at hv, fun p hp => by simp at hp,
      fun e2 hp => ⟨rfl, rfl⟩⟩
  · rw [runFlow_docErr env q r1 r2 a w e h1 hc1 h2 hc2 h3 h4 h5]
    exact ⟨by simp, fun hv => by simp at hv, fun p hp => by simp at hp,
      fun e2 hp => ⟨rfl, rfl⟩⟩
  · rw [runFlow_biasErr env q r1 r2 a w d e h1 hc1 h2 hc2 h3 h4 h5 h6]
    exact ⟨by simp, fun hv => by simp at hv, fun p hp => by simp at hp,
      fun e2 hp => ⟨rfl, rfl⟩⟩
  · rw [runFlow_success env q r1 r2 a w d b h1 hc1 h2 hc2 h3 h4 h5 h6]
    exact ⟨by simp [successState], fun hv => by simp at hv,
      fun p hp => rfl, fun e2 hp => by simp at hp⟩

/-- C4 (witness): the amended invariant at a concrete rejected run. -/
theorem c4_terminal_xor_witness :
    ((runFlow envRelNo "w4").state.validation_error ≠ "" ∧
     (runFlow envRelNo "w4").state.final_doc = "") ∧
    ¬((runFlow envRelNo "w4").state.final_doc ≠ "" ∧
      (runFlow envRelNo "w4").state.validation_error ≠ "") :=
  ⟨(c4_terminal_xor envRelNo "w4").2.1 (by decide),
   (c4_terminal_xor envRelNo "w4").1⟩

/-- C5: a judge response is classified positive exactly when its trimmed,
case-folded text contains the token "true"; on a positive relevance verdict
the ethics judge runs, on a negative one the run is rejected with kind
"aeronautic"; on a positive ethics verdict the rag worker runs, on a
negative one the run is rejected with kind "ethical".  Any other content
yields the negative branch, since classification is a total boolean test. -/
theorem c5_judge_normalization (env : Env) (q r1 r2 : String) :
    (classifyJudge r1 = true ↔
      "true".data <:+: pyLower (pyStrip r1.data)) ∧
    (env.relevanceJudge q = .ok r1 →
      ((classifyJudge r1 = true →
        Event.judgeEthics q ∈ (runFlow env q).trace) ∧
       (classifyJudge r1 = false →
        (runFlow env q).outcome = .validationFailed ∧
        (runFlow env q).state.validation_error = "aeronautic"))) ∧
    (env.relevanceJudge q = .ok r1 → classifyJudge r1 = true →
     env.ethicsJudge q = .ok r2 →
      ((classifyJudge r2 = true →
        Event.ragWorker q ∈ (runFlow env q).trace) ∧
       (classifyJudge r2 = false →
        (runFlow env q).outcome = .validationFailed ∧
        (runFlow env q).state.validation_error = "ethical"))) := by
  refine ⟨?_, ?_, ?_⟩
  · simp only [classifyJudge, normalizeResp]
    exact hasSubstrL_iff _ _
  · intro h1
    constructor
    · intro hc1
      exact ethicsJudge_invoked env q r1 h1 hc1
    · intro hc1
      rw [runFlow_relNeg env q r1 h1 hc1]
      exact ⟨rfl, rfl⟩
  · intro h1 hc1 h2
    constructor
    · intro hc2
      exact ragWorker_invoked env q r1 r2 h1 hc1 h2 hc2
    · intro hc2
      rw [runFlow_ethNeg env q r1 r2 h1 hc1 h2 hc2]
      exact ⟨rfl, rfl⟩

/-- C5 (witness): the classification equivalence and both positive gate
branches at concrete environments. -/
theorem c5_judge_normalization_witness :
    (classifyJudge " True." = true ↔
      "true".data <:+: pyLower (pyStrip " True.".data)) ∧
    Event.judgeEthics "w5" ∈ (runFlow envAllTrue "w5").trace ∧
    (runFlow envRelNo "w5b").state.validation_error = "aeronautic" :=
  ⟨(c5_judge_normalization envAllTrue "w5" " True." "True").1,
   ((c5_judge_normalization envAllTrue "w5" "True" "True").2.1 rfl).1
     (by decide),
   (((c5_judge_normalization envRelNo "w5b" "False" "True").2.1 rfl).2
     (by decide)).2⟩

/-- C6: when a judge invocation raises inside a gating stage, the run
terminates as a validation stop (not as an unhandled fault) with kind
"technical" and a message embedding the underlying error text. -/
theorem c6_gate_technical (env : Env) (q e : String) :
    (env.relevanceJudge q = .error e →
      (runFlow env q).outcome = .validationFailed ∧
      (runFlow env q).state.validation_error = "technical" ∧
      (runFlow env q).state.error_message = aeroTechHead ++ e ∧
      pyIn e (runFlow env q).state.error_message = true) ∧
    (∀ r1, env.relevanceJudge q = .ok r1 → classifyJudge r1 = true →
      env.ethicsJudge q = .error e →
      (runFlow env q).outcome = .validationFailed ∧
      (runFlow env q).state.validation_error = "technical" ∧
      (runFlow env q).state.error_message = ethicsTechHead ++ e ∧
      pyIn e (runFlow env q).state.error_message = true) := by
  constructor
  · intro h1
    rw [runFlow_relErr env q e h1]
    exact ⟨rfl, rfl, rfl, pyIn_append_self aeroTechHead e⟩
  · intro r1 h1 hc1 h2
    rw [runFlow_ethErr env q r1 e h1 hc1 h2]
    exact ⟨rfl, rfl, rfl, pyIn_append_self ethicsTechHead e⟩

/-- C6 (witness): the technical recovery at a concrete raising judge. -/
theorem c6_gate_technical_witness :
    (runFlow envRelErr "w6").outcome = .validationFailed ∧
    (runFlow envRelErr "w6").state.validation_error = "technical" ∧
    (runFlow envRelErr "w6").state.error_message =
      aeroTechHead ++ "timeout" ∧
    pyIn "timeout" (runFlow envRelErr "w6").state.error_message = true :=
  (c6_gate_technical envRelErr "w6" "timeout").1 rfl

/-- C7: a failed gating check is run-terminal: whenever the outcome is the
validation stop, the whole trace is just the one or two judge calls, so no
research or review worker ran afterwards and no stage was retried within
the run; a new question requires a fresh run. -/
theorem c7_validation_terminal (env : Env) (q : String)
    (h : (runFlow env q).outcome = .validationFailed) :
    ((runFlow env q).trace = [.judgeRelevance q] ∨
     (runFlow env q).trace = [.judgeRelevance q, .judgeEthics q]) ∧
    (runFlow env q).trace.all (fun ev => !isWorkerEvent ev) = true := by
  rcases runFlow_branches env q with
    ⟨e, h1⟩ | ⟨r1, h1, hc1⟩ | ⟨r1, e, h1, hc1, h2⟩ |
    ⟨r1, r2, h1, hc1, h2, hc2⟩ | ⟨r1, r2, e, h1, hc1, h2, hc2, h3⟩ |
    ⟨r1, r2, a, e, h1, hc1, h2, hc2, h3, h4⟩ |
    ⟨r1, r2, a, w, e, h1, hc1, h2, hc2, h3, h4, h5⟩ |
    ⟨r1, r2, a, w, d, e, h1, hc1, h2, hc2, h3, h4, h5, h6⟩ |
    ⟨r1, r2, a, w, d, b, h1, hc1, h2, hc2, h3, h4, h5, h6⟩
  · rw [runFlow_relErr env q e h1]
    exact ⟨Or.inl rfl, by simp [isWorkerEvent]⟩
  · rw [runFlow_relNeg env q r1 h1 hc1]
    exact ⟨Or.inl rfl, by simp [isWorkerEvent]⟩
  · rw [runFlow_ethErr env q r1 e h1 hc1 h2]
    exact ⟨Or.inr rfl, by simp [isWorkerEvent]⟩
  · rw [runFlow_ethNeg env q r1 r2 h1 hc1 h2 hc2]
    exact ⟨Or.inr rfl, by simp [isWorkerEvent]⟩
  · rw [runFlow_ragErr env q r1 r2 e h1 hc1 h2 hc2 h3] at h
    simp at h
  · rw [runFlow_webErr env q r1 r2 a e h1 hc1 h2 hc2 h3 h4] at h
    simp at h
  · rw [runFlow_docErr env q r1 r2 a w e h1 hc1 h2 hc2 h3 h4 h5] at h
    simp at h
  · rw [runFlow_biasErr env q r1 r2 a w d e h1 hc1 h2 hc2 h3 h4 h5 h6] at h
    simp at h
  · rw [runFlow_success env q r1 r2 a w d b h1 hc1 h2 hc2 h3 h4 h5 h6] at h
    simp at h

/-- C7 (witness): terminality of a concrete ethics rejection. -/
theorem c7_validation_terminal_witness :
    ((runFlow envEthNo "w7").trace = [.judgeRelevance "w7"] ∨
     (runFlow envEthNo "w7").trace =
       [.judgeRelevance "w7", .judgeEthics "w7"]) ∧
    (runFlow envEthNo "w7").trace.all (fun ev => !isWorkerEvent ev) = true :=
  c7_validation_terminal envEthNo "w7" (by decide)

/-- C8: the question is never mutated: at the terminal state of every run,
`question_input` still equals the string supplied before kickoff. -/
theorem c8_question_immutable (env : Env) (q : String) :
    (runFlow env q).state.question_input = q := by
  rcases runFlow_branches env q with
    ⟨e, h1⟩ | ⟨r1, h1, hc1⟩ | ⟨r1, e, h1, hc1, h2⟩ |
    ⟨r1, r2, h1, hc1, h2, hc2⟩ | ⟨r1, r2, e, h1, hc1, h2, hc2, h3⟩ |
    ⟨r1, r2, a, e, h1, hc1, h2, hc2, h3, h4⟩ |
    ⟨r1, r2, a, w, e, h1, hc1, h2, hc2, h3, h4, h5⟩ |
    ⟨r1, r2, a, w, d, e, h1, hc1, h2, hc2, h3, h4, h5, h6⟩ |
    ⟨r1, r2, a, w, d, b, h1, hc1, h2, hc2, h3, h4, h5, h6⟩
  · rw [runFlow_relErr env q e h1]
  · rw [runFlow_relNeg env q r1 h1 hc1]
    rfl
  · rw [runFlow_ethErr env q r1 e h1 hc1 h2]
  · rw [runFlow_ethNeg env q r1 r2 h1 hc1 h2 hc2]
    rfl
  · rw [runFlow_ragErr env q r1 r2 e h1 hc1 h2 hc2 h3]
  · rw [runFlow_webErr env q r1 r2 a e h1 hc1 h2 hc2 h3 h4]
  · rw [runFlow_docErr env q r1 r2 a w e h1 hc1 h2 hc2 h3 h4 h5]
  · rw [runFlow_biasErr env q r1 r2 a w d e h1 hc1 h2 hc2 h3 h4 h5 h6]
  · rw [runFlow_success env q r1 r2 a w d b h1 hc1 h2 hc2 h3 h4 h5 h6]
    rfl

/-- C9: the validation-error kind and the error message are always set
together: at the terminal state of every run one is nonempty exactly when
the other is. -/
theorem c9_err_fields_together (env : Env) (q : String) :
    ((runFlow env q).state.validation_error ≠ "" ↔
      (runFlow env q).state.error_message ≠ "") := by
  rcases runFlow_branches env q with
    ⟨e, h1⟩ | ⟨r1, h1, hc1⟩ | ⟨r1, e, h1, hc1, h2⟩ |
    ⟨r1, r2, h1, hc1, h2, hc2⟩ | ⟨r1, r2, e, h1, hc1, h2, hc2, h3⟩ |
    ⟨r1, r2, a, e, h1, hc1, h2, hc2, h3, h4⟩ |
    ⟨r1, r2, a, w, e, h1, hc1, h2, hc2, h3, h4, h5⟩ |
    ⟨r1, r2, a, w, d, e, h1, hc1, h2, hc2, h3, h4, h5, h6⟩ |
    ⟨r1, r2, a, w, d, b, h1, hc1, h2, hc2, h3, h4, h5, h6⟩
  · rw [runFlow_relErr env q e h1]
    exact ⟨fun _ => append_ne_empty_left aeroTechHead e (by decide),
      fun _ => show ("technical" : String) ≠ "" by decide⟩
  · rw [runFlow_relNeg env q r1 h1 hc1]
    exact ⟨fun _ => show aeroRejectMsg ≠ "" by decide,
      fun _ => show ("aeronautic" : String) ≠ "" by decide⟩
  · rw [runFlow_ethErr env q r1 e h1 hc1 h2]
    exact ⟨fun _ => append_ne_empty_left ethicsTechHead e (by decide),
      fun _ => show ("technical" : String) ≠ "" by decide⟩
  · rw [runFlow_ethNeg env q r1 r2 h1 hc1 h2 hc2]
    exact ⟨fun _ => show ethicsRejectMsg ≠ "" by decide,
      fun _ => show ("ethical" : String) ≠ "" by decide⟩
  · rw [runFlow_ragErr env q r1 r2 e h1 hc1 h2 hc2 h3]
  · rw [runFlow_webErr env q r1 r2 a e h1 hc1 h2 hc2 h3 h4]
  · rw [runFlow_docErr env q r1 r2 a w e h1 hc1 h2 hc2 h3 h4 h5]
  · rw [runFlow_biasErr env q r1 r2 a w d e h1 hc1 h2 hc2 h3 h4 h5 h6]
  · rw [runFlow_success env q r1 r2 a w d b h1 hc1 h2 hc2 h3 h4 h5 h6]
    simp [successState]

/-- C10: the synthesis stage stores in `all_results`, and hands to the doc
crew, exactly the string "RAG Result: " followed by the rag result, two
newlines, "Web Result: " and the web result, whatever those two results
are. -/
theorem c10_aggregation_format (env : Env) (q r1 r2 a w : String)
    (h1 : env.relevanceJudge q = .ok r1) (hc1 : classifyJudge r1 = true)
    (h2 : env.ethicsJudge q = .ok r2) (hc2 : classifyJudge r2 = true)
    (h3 : env.ragCrew q = .ok a) (h4 : env.webCrew q = .ok w) :
    (runFlow env q).state.all_results =
      "RAG Result: " ++ a ++ "\n\nWeb Result: " ++ w ∧
    Event.docWorker ("RAG Result: " ++ a ++ "\n\nWeb Result: " ++ w) ∈
      (runFlow env q).trace := by
  cases h5 : env.docCrew (aggStr a w) with
  | error e =>
    rw [runFlow_docErr env q r1 r2 a w e h1 hc1 h2 hc2 h3 h4 h5]
    exact ⟨rfl, by simp [aggStr]⟩
  | ok d =>
    cases h6 : env.biasCrew d with
    | error e =>
      rw [runFlow_biasErr env q r1 r2 a w d e h1 hc1 h2 hc2 h3 h4 h5 h6]
      exact ⟨rfl, by simp [aggStr]⟩
    | ok b =>
      rw [runFlow_success env q r1 r2 a w d b h1 hc1 h2 hc2 h3 h4 h5 h6]
      exact ⟨rfl, by simp [successTrace, aggStr]⟩

/-- C10 (witness): the aggregation format at a concrete environment. -/
theorem c10_aggregation_format_witness :
    (runFlow envAllTrue "w10").state.all_results =
      "RAG Result: " ++ "RAGOUT" ++ "\n\nWeb Result: " ++ "WEBOUT" ∧
    Event.docWorker
        ("RAG Result: " ++ "RAGOUT" ++ "\n\nWeb Result: " ++ "WEBOUT") ∈
      (runFlow envAllTrue "w10").trace :=
  c10_aggregation_format envAllTrue "w10" "True" "True" "RAGOUT" "WEBOUT"
    rfl (by decide) rfl (by decide) rfl rfl

end RagFlow
